import Mathlib

/-!
Verification of the revm core (Wodann/revm fork) against its
natural-language specification.  The definitions below are shallow
embeddings of the Rust source under crates/revm; machine integers are
modelled as `Nat` (with explicit bounds where overflow matters), fallible
code as `Option`/`Except`, and the journaled state as explicit state
passing over association lists.  Components of the repository that are
not present under src/ (the `gas` constants module, the `macros` module,
`journaled_state.rs`, the interpreter crate) are modelled from the
specification and marked as such in their doc comments.
-/

namespace Revm

/-! ## Basic types -/

/-- Addresses (`B160`) are modelled as natural numbers; the claims under
study never depend on the 160-bit representation. -/
abbrev Addr := Nat

/-- `u64::MAX + 1`, the modulus of 64-bit arithmetic. -/
def U64_MOD : Nat := 2 ^ 64

/-- The Keccak-256 hash of the empty byte string (`KECCAK_EMPTY` in
crates/revm), as a 256-bit word read big-endian. -/
def KECCAK_EMPTY : Nat :=
  0xc5d2460186f7233c927e7db2dcc703c0e500b653ca82273b7bfad8045d85a470

/-! ## Gas meter

Modelled from the spec: the `Gas` struct lives in the interpreter part of
the repository, which is not under src/.  Spec section 4.4: "State:
`limit, remaining, refunded`. Primitives: `charge(c)` decrements
remaining or fails OUT_OF_GAS; `erase(c)` refunds unspent gas after a
subcall; `record_refund(r)` accumulates (may be negative for SSTORE
clears)."  `spend` is `limit - remaining` (the gas used so far). -/
structure Gas where
  limit : Nat
  remaining : Nat
  refunded : Int
deriving Repr, DecidableEq

/-- `Gas::new(limit)`: full remaining, no refund. -/
def Gas.new (limit : Nat) : Gas :=
  { limit := limit, remaining := limit, refunded := 0 }

/-- `Gas::spend()`: gas used so far. -/
def Gas.spend (g : Gas) : Nat := g.limit - g.remaining

/-- `Gas::record_cost(c)`: charge `c`, failing (returning `none`) when
less than `c` gas remains. -/
def Gas.record_cost (g : Gas) (cost : Nat) : Option Gas :=
  if cost ≤ g.remaining then some { g with remaining := g.remaining - cost } else none

/-- Reinterpretation of an `i64` refund counter as a `u64`, as performed
by the `gas.refunded() as u64` cast in `EVMImpl::finalize`
(crates/revm/src/evm_impl.rs line 381). -/
def i64AsU64 (x : Int) : Nat := (x % (2 ^ 64 : Int)).toNat

/-! ## C1: refund cap at finalize (crates/revm/src/evm_impl.rs 361-412) -/

/-- The gas refund granted by `EVMImpl::finalize`: `0` when refunds are
disabled, otherwise `min(gas.refunded() as u64, gas.spend() / q)` with
`q = 5` when the London hardfork is enabled and `q = 2` otherwise
(crates/revm/src/evm_impl.rs lines 376-382). -/
def finalize_gas_refunded (disable_gas_refund london : Bool) (gas : Gas) : Nat :=
  if disable_gas_refund then 0
  else
    let max_refund_quotient := if london then 5 else 2
    min (i64AsU64 gas.refunded) (gas.spend / max_refund_quotient)

/-! ## C2: CALL gas forwarding (crates/revm/src/instructions/host.rs 346-472) -/

/-- The `CallScheme` enum from crates/revm. -/
inductive CallScheme where
  | call
  | callCode
  | delegateCall
  | staticCall
deriving Repr, DecidableEq

/-- Modelled from the spec: `gas::CALL_STIPEND` lives in the gas
constants module, which is not under src/.  Spec section 4.7: "if
value>0 add stipend 2300". -/
def CALL_STIPEND : Nat := 2300

/-- The transfer value constructed by `call_inner`
(crates/revm/src/instructions/host.rs lines 421-440): the popped value
for CALL and CALLCODE, zero for DELEGATECALL and STATICCALL. -/
def transferValue (scheme : CallScheme) (value : Nat) : Nat :=
  match scheme with
  | .call | .callCode => value
  | .delegateCall | .staticCall => 0

/-- The gas-forwarding computation of `call_inner`
(crates/revm/src/instructions/host.rs lines 442-472): charge the call
base cost, then cap the requested (`local_gas_limit`) forwarded gas at
`remaining - remaining/64` when Tangerine is enabled, charge the
forwarded amount, and finally add the 2300 stipend when a CALL or
CALLCODE transfers a nonzero value.  Returns the gas limit handed to the
subcall together with the caller's remaining gas, or `none` on
out-of-gas. -/
def call_forward_gas (tangerine : Bool) (scheme : CallScheme)
    (base_cost remaining local_gas_limit value : Nat) : Option (Nat × Nat) :=
  if base_cost ≤ remaining then
    let rem := remaining - base_cost
    let gas_limit := if tangerine then min (rem - rem / 64) local_gas_limit else local_gas_limit
    if gas_limit ≤ rem then
      let rem' := rem - gas_limit
      let gas_limit' :=
        if (scheme = CallScheme.call ∨ scheme = CallScheme.callCode)
            ∧ transferValue scheme value ≠ 0 then
          gas_limit + CALL_STIPEND
        else gas_limit
      some (gas_limit', rem')
    else none
  else none

/-! ## C7: BLOCKHASH (crates/revm/src/instructions/host.rs 123-144 and
crates/revm/src/context.rs 95-117) -/

/-- The value pushed by the BLOCKHASH instruction
(crates/revm/src/instructions/host.rs lines 123-144): zero unless the
requested number is between 1 and 256 blocks behind the current block
number, in which case the hash from the backing store is pushed.  The
difference is saturated to `usize` (`as_usize_saturated!`) before the
window check. -/
def blockhash (block_number : Nat) (store : Nat → Nat) (number : Nat) : Nat :=
  if number ≤ block_number then
    let diff := min (block_number - number) (U64_MOD - 1)
    if diff ≤ 256 ∧ diff ≠ 0 then store number else 0
  else 0

/-- `Host::block_hash` for `Context` (crates/revm/src/context.rs lines
95-117): the current block number is saturated to `usize`, the requested
number is a `u64` (which always fits `usize`); zero is returned when the
requested number is the current one, exceeds it, or is more than
`BLOCK_HASH_HISTORY = 256` blocks behind it. -/
def context_block_hash (block_number : Nat) (store : Nat → Nat) (number : Nat) : Nat :=
  let block_number' := min block_number (U64_MOD - 1)
  if number ≤ block_number' then
    let diff := block_number' - number
    if diff = 0 then 0
    else if diff ≤ 256 then store number
    else 0
  else 0

/-! ## C8: intrinsic gas (crates/revm/src/evm_impl.rs 447-501) -/

/-- Modelled from the spec: `gas::TRANSACTION_ZERO_DATA` lives in the gas
constants module, which is not under src/.  Spec section 4.10: "+4 per
zero data byte". -/
def TRANSACTION_ZERO_DATA : Nat := 4

/-- Modelled from the spec: `gas::ACCESS_LIST_ADDRESS` lives in the gas
constants module, which is not under src/.  Spec section 4.10:
"+2400/+1900 per access-list address/slot (Berlin+)". -/
def ACCESS_LIST_ADDRESS : Nat := 2400

/-- Modelled from the spec: `gas::ACCESS_LIST_STORAGE_KEY` lives in the
gas constants module, which is not under src/.  Spec section 4.10:
"+2400/+1900 per access-list address/slot (Berlin+)". -/
def ACCESS_LIST_STORAGE_KEY : Nat := 1900

/-- The intrinsic gas computed by `EVMImpl::initialization`
(crates/revm/src/evm_impl.rs lines 447-501), with `USE_GAS` enabled.
`data` is the transaction calldata as bytes; `access_list` pairs each
address with its storage keys.  The access-list loop accumulates slot
counts with a fold, mirroring the `accessed_slots +=` loop. -/
def initialization (is_create homestead istanbul berlin : Bool)
    (data : List Nat) (access_list : List (Addr × List Nat)) : Nat :=
  let zero_data_len := (data.filter (fun v => v = 0)).length
  let non_zero_data_len := data.length - zero_data_len
  let accessed_accounts := if berlin then access_list.length else 0
  let accessed_slots :=
    if berlin then access_list.foldl (fun acc p => acc + p.2.length) 0 else 0
  let transact :=
    if is_create then
      if homestead then 53000 else 21000
    else 21000
  let gas_transaction_non_zero_data := if istanbul then 16 else 68
  transact
    + zero_data_len * TRANSACTION_ZERO_DATA
    + non_zero_data_len * gas_transaction_non_zero_data
    + accessed_accounts * ACCESS_LIST_ADDRESS
    + accessed_slots * ACCESS_LIST_STORAGE_KEY

/-! ## C10: Host::code_hash (crates/revm/src/evm_impl.rs 902-920) -/

/-- The fields of `AccountInfo` needed by `code_hash`; the code hash is a
256-bit word read big-endian (so `B256::zero()` is `0`). -/
structure AccountInfo where
  balance : Nat
  nonce : Nat
  code_hash : Nat
deriving Repr, DecidableEq

instance : Inhabited AccountInfo := ⟨⟨0, 0, 0⟩⟩

/-- Modelled from the spec: `Account::is_empty` lives in
journaled_state.rs, which is not under src/.  Spec section 3: "An account
is *empty* iff balance=0, nonce=0, and code_hash is either zero or the
hash of empty bytes (KECCAK_EMPTY)." -/
def AccountInfo.is_empty (a : AccountInfo) : Bool :=
  a.balance = 0 && a.nonce = 0 && (a.code_hash = 0 || a.code_hash = KECCAK_EMPTY)

/-- `Host::code_hash` for `EVMImpl` (crates/revm/src/evm_impl.rs lines
902-920): `KECCAK_EMPTY` for a precompile address when
`perf_all_precompiles_have_balance` is set, the all-zero hash for an
empty loaded account, and the account's stored code hash otherwise.
`precompiles` is the set of precompile addresses; `acc` is the account
loaded by `load_code`. -/
def code_hash (precompiles : List Addr) (perf_all_precompiles_have_balance : Bool)
    (address : Addr) (acc : AccountInfo) : Nat :=
  if address ∈ precompiles ∧ perf_all_precompiles_have_balance then KECCAK_EMPTY
  else if acc.is_empty then 0
  else acc.code_hash

/-! ## Journaled state

Modelled from the spec: journaled_state.rs is not under src/.  Spec
section 4.5: the journal is an append-only log of reversible mutations;
"checkpoint() snapshots journal and log lengths"; "revert(cp) replays
entries from end down to cp.journal_length inverting each, then
truncates"; "every mutation has a paired inverse entry".  The model
tracks only the account map (nonce, balance, code emptiness) — enough
for the frame-engine claims — and records, for every mutation, the
address together with its previous entry (`none` when the address was
absent, as for the AccountLoaded entry of a first touch). -/

/-- Account data tracked by the journal model. -/
structure JAccount where
  nonce : Nat
  balance : Nat
  hasCode : Bool
deriving Repr, DecidableEq

instance : Inhabited JAccount := ⟨⟨0, 0, false⟩⟩

/-- Association-list account map. -/
abbrev AccountMap := List (Addr × JAccount)

/-- Look up an address in the account map. -/
def lookupA (a : Addr) : AccountMap → Option JAccount
  | [] => none
  | (k, v) :: rest => if k = a then some v else lookupA a rest

/-- Update an address (appending at the end when absent), preserving the
positions of all other entries. -/
def updateA (a : Addr) (v : JAccount) : AccountMap → AccountMap
  | [] => [(a, v)]
  | (k, w) :: rest => if k = a then (k, v) :: rest else (k, w) :: updateA a v rest

/-- Remove the entry for an address. -/
def removeA (a : Addr) : AccountMap → AccountMap
  | [] => []
  | (k, w) :: rest => if k = a then rest else (k, w) :: removeA a rest

/-- A journal entry: the touched address and its previous account entry
(`none` when the address was not in the map). -/
abbrev JEntry := Addr × Option JAccount

/-- The journaled state: the account map, the journal (newest entry
first), and the call-frame depth. -/
structure JournaledState where
  state : AccountMap
  journal : List JEntry
  depth : Nat
deriving Repr, DecidableEq

/-- Perform a journaled account mutation: record the previous entry,
then update the map. -/
def setAccount (a : Addr) (v : JAccount) (js : JournaledState) : JournaledState :=
  { js with
    state := updateA a v js.state
    journal := (a, lookupA a js.state) :: js.journal }

/-- `JournaledState::checkpoint`: the current journal length. -/
def checkpoint (js : JournaledState) : Nat := js.journal.length

/-- Invert one journal entry against the account map. -/
def undoEntry (e : JEntry) (s : AccountMap) : AccountMap :=
  match e.2 with
  | some v => updateA e.1 v s
  | none => removeA e.1 s

/-- Replay journal entries from the end down to length `cp`, inverting
each (spec section 4.5, `revert`). -/
def revertJournal (cp : Nat) : List JEntry → AccountMap → List JEntry × AccountMap
  | [], s => ([], s)
  | e :: rest, s =>
    if (e :: rest).length ≤ cp then (e :: rest, s)
    else revertJournal cp rest (undoEntry e s)

/-- `JournaledState::checkpoint_revert`. -/
def checkpoint_revert (cp : Nat) (js : JournaledState) : JournaledState :=
  let p := revertJournal cp js.journal js.state
  { js with journal := p.1, state := p.2 }

/-- A sequence of journaled mutations, applied oldest first.  The state
effects of running a frame's code are quantified over such sequences. -/
def applyOps (ops : List (Addr × JAccount)) (js : JournaledState) : JournaledState :=
  ops.foldl (fun s p => setAccount p.1 p.2 s) js

/-- `JournaledState::load_account`: fetch the account from the backing
store on first access, journaled (spec section 4.5: "first access marks
cold-then-warm and pushes AccountLoaded"). -/
def load_account (a : Addr) (db : Addr → JAccount) (js : JournaledState) : JournaledState :=
  match lookupA a js.state with
  | some _ => js
  | none => setAccount a (db a) js

/-- The account at an address, absent addresses reading as the default
(fresh) account. -/
def getAccount (a : Addr) (js : JournaledState) : JAccount :=
  (lookupA a js.state).getD default

/-- `JournaledState::inc_nonce` (spec section 4.9: "Increment caller
nonce (overflow → halt)"): returns the new nonce, or `none` on u64
overflow or when the account is not loaded. -/
def inc_nonce (a : Addr) (js : JournaledState) : Option (Nat × JournaledState) :=
  match lookupA a js.state with
  | none => none
  | some acc =>
    if acc.nonce + 1 < U64_MOD then
      some (acc.nonce + 1, setAccount a { acc with nonce := acc.nonce + 1 } js)
    else none

/-- Transaction-level errors of `EVMImpl` (`TransactionError`,
crates/revm/src/evm_impl.rs lines 113-137); only the variants reachable
in the modelled paths are included. -/
inductive TxErr where
  | outOfFund
  | nonceOverflow (addr : Addr)
deriving Repr, DecidableEq

/-- `JournaledState::transfer` (spec section 4.5: "atomic; fails with
OutOfFund if src.balance < value; touches both"); in this fork the
failure is `TransactionError::OutOfFund`. -/
def transfer (src dst : Addr) (value : Nat) (js : JournaledState) :
    Except TxErr JournaledState :=
  let s := getAccount src js
  if s.balance < value then .error .outOfFund
  else
    let js1 := setAccount src { s with balance := s.balance - value } js
    let d := getAccount dst js1
    .ok (setAccount dst { d with balance := d.balance + value } js1)

/-- `JournaledState::create_account` (spec section 4.5: "fails iff the
target already has nonzero nonce or nonempty code (collision)"); the
successful touch is journaled.  Returns `none` on collision, mirroring
`Ok(false)`. -/
def create_account (a : Addr) (js : JournaledState) : Option JournaledState :=
  let acc := getAccount a js
  if acc.nonce ≠ 0 ∨ acc.hasCode then none
  else some (setAccount a acc js)

/-! ## Frame-engine outcome types (crates/revm/src/evm_impl.rs and
crates/revm/src/instructions.rs) -/

/-- The `Eval` enum (crates/revm/src/instructions.rs lines 31-40). -/
inductive Eval where
  | cont
  | stop
  | ret
  | selfDestruct
  | revertE
deriving Repr, DecidableEq

/-- The `return_ok!` macro (crates/revm/src/instructions.rs lines
21-26): `Continue | Stop | Return | SelfDestruct`. -/
def Eval.isOk : Eval → Bool
  | .cont | .stop | .ret | .selfDestruct => true
  | .revertE => false

/-- The `ExceptionalHalt` enum (crates/revm/src/evm_impl.rs lines
38-65).  The declared enum has a `StackDepthLimit` variant and no
`CallTooDeep` variant, yet `create_inner` (line 521) constructs
`ExceptionalHalt::CallTooDeep`; both names are included here so that the
source text of both frame paths can be embedded as written. -/
inductive XHalt where
  | invalidContractPrefixHalt
  | invalidJump
  | invalidOpcode
  | invalidParameter
  | outOfBoundsRead
  | outOfGas
  | stackDepthLimit
  | stackOverflow
  | stackUnderflow
  | writeInStaticContext
  | callTooDeep
deriving Repr, DecidableEq

/-- The `Reason` enum (crates/revm/src/instructions.rs lines 48-52),
extended — exactly as the source text uses it — with the `OutOfFund` and
`CreateCollision` outcomes constructed by `create_inner` (lines 531 and
571) although the declared enum lacks them. -/
inductive Reason where
  | success (eval : Eval)
  | failure (halt : XHalt)
  | outOfFund
  | createCollision
deriving Repr, DecidableEq

/-- `CallOutputs` as used by `EVMImpl::call_inner`. -/
structure CallOutputs where
  exit_reason : Reason
  gas : Gas
  return_value : List Nat
deriving Repr, DecidableEq

/-- `CreateOutputs` as used by `EVMImpl::create_inner`. -/
structure CreateOutputs where
  exit_reason : Reason
  address : Option Addr
  gas : Gas
  return_value : List Nat
deriving Repr, DecidableEq

/-- Modelled from the spec: `interpreter::CALL_STACK_LIMIT` lives in the
interpreter part of the repository, which is not under src/.  Spec
section 4.9: "check depth ≤ 1024 (else CallTooDeep)". -/
def CALL_STACK_LIMIT : Nat := 1024

/-! ## C5/C6: EVMImpl::call_inner (crates/revm/src/evm_impl.rs 715-854) -/

/-- `CallInputs` (the fields used by the modelled path). -/
structure CallInputs where
  contract : Addr
  source : Addr
  target : Addr
  value : Nat
  context_address : Addr
  gas_limit : Nat
  is_static : Bool
deriving Repr, DecidableEq

/-- The outcome of running the subcall's interpreter frame, abstracted:
its journaled state effects, exit reason, final gas and output. -/
structure FrameRun where
  ops : List (Addr × JAccount)
  exit_reason : Eval
  gas : Gas
  output : List Nat
deriving Repr, DecidableEq

/-- `EVMImpl::call_inner` (crates/revm/src/evm_impl.rs lines 715-854),
non-inspecting, non-precompile path, with the interpreter run abstracted
as `run`.  The control flow mirrors the source: fresh gas; load the
contract's code (journaled account load); depth check (returning
`StackDepthLimit` with the untouched gas); checkpoint; touch the target
when no value is transferred; transfer — whose `OutOfFund` failure
propagates as a transaction-level error via `?`, without reverting the
checkpoint; run the frame; commit on ok, revert otherwise. -/
def evm_call_inner (db : Addr → JAccount) (inputs : CallInputs) (run : FrameRun)
    (js : JournaledState) : Except TxErr (CallOutputs × JournaledState) :=
  let gas := Gas.new inputs.gas_limit
  let js := load_account inputs.contract db js
  if js.depth > CALL_STACK_LIMIT then
    .ok ({ exit_reason := .failure .stackDepthLimit, gas := gas, return_value := [] }, js)
  else
    let cp := checkpoint js
    let js := if inputs.value = 0 then load_account inputs.context_address db js else js
    match transfer inputs.source inputs.target inputs.value js with
    | .error e => .error e
    | .ok js =>
      let js := applyOps run.ops js
      if run.exit_reason.isOk then
        .ok ({ exit_reason := .success run.exit_reason, gas := run.gas,
               return_value := run.output }, js)
      else
        .ok ({ exit_reason := .success run.exit_reason, gas := run.gas,
               return_value := run.output }, checkpoint_revert cp js)

/-! ## C3/C6: EVMImpl::create_inner (crates/revm/src/evm_impl.rs 503-713) -/

/-- `CreateInputs` (the fields used by the modelled path; the created
address is produced by the keccak-based derivation, abstracted below as
`mk_address`). -/
structure CreateInputs where
  caller : Addr
  value : Nat
  gas_limit : Nat
deriving Repr, DecidableEq

/-- Modelled from the spec: `gas::CODEDEPOSIT` lives in the gas
constants module, which is not under src/.  Spec section 4.7: "On
success, code-deposit cost = `200·len`". -/
def CODEDEPOSIT : Nat := 200

/-- `EVMImpl::create_inner` (crates/revm/src/evm_impl.rs lines 503-713),
non-inspecting, with the init-code interpreter run abstracted as `run`
and the keccak-based address derivation as `mk_address` (a function of
caller and old nonce).  The control flow mirrors the source: fresh gas;
load the caller; depth check (the source constructs
`ExceptionalHalt::CallTooDeep` here); caller balance check
(`Reason::OutOfFund` as written at line 531); increment caller nonce
(overflow propagates as `TransactionError::NonceOverflow`); derive and
load the created address; checkpoint; create the account (collision
reverts); transfer the value; bump the created account's nonce under
Spurious Dragon; run the init code; on success apply EIP-3541 (London:
first output byte 0xEF reverts with `InvalidContractPrefix`), the
EIP-170 size limit, and the code-deposit charge; otherwise revert. -/
def evm_create_inner (spurious_dragon london homestead : Bool)
    (limit_contract_code_size : Nat) (db : Addr → JAccount)
    (mk_address : Addr → Nat → Addr) (inputs : CreateInputs) (run : FrameRun)
    (js : JournaledState) : Except TxErr (CreateOutputs × JournaledState) :=
  let gas := Gas.new inputs.gas_limit
  let js := load_account inputs.caller db js
  if js.depth > CALL_STACK_LIMIT then
    .ok ({ exit_reason := .failure .callTooDeep, address := none, gas := gas,
           return_value := [] }, js)
  else if (getAccount inputs.caller js).balance < inputs.value then
    .ok ({ exit_reason := .outOfFund, address := none, gas := gas,
           return_value := [] }, js)
  else
    match inc_nonce inputs.caller js with
    | none => .error (.nonceOverflow inputs.caller)
    | some (nonce, js) =>
      let old_nonce := nonce - 1
      let created_address := mk_address inputs.caller old_nonce
      let js := load_account created_address db js
      let cp := checkpoint js
      match create_account created_address js with
      | none =>
        .ok ({ exit_reason := .createCollision, address := some created_address,
               gas := gas, return_value := [] }, checkpoint_revert cp js)
      | some js =>
        match transfer inputs.caller created_address inputs.value js with
        | .error e => .error e
        | .ok js =>
          let js :=
            if spurious_dragon then
              let acc := getAccount created_address js
              setAccount created_address { acc with nonce := acc.nonce + 1 } js
            else js
          let js := applyOps run.ops js
          if run.exit_reason.isOk then
            if london ∧ run.output ≠ [] ∧ run.output.head? = some 0xEF then
              .ok ({ exit_reason := .failure .invalidContractPrefixHalt,
                     address := some created_address, gas := gas,
                     return_value := run.output }, checkpoint_revert cp js)
            else if spurious_dragon ∧ run.output.length > limit_contract_code_size then
              .ok ({ exit_reason := .failure .outOfGas,
                     address := some created_address, gas := gas,
                     return_value := run.output }, checkpoint_revert cp js)
            else
              match run.gas.record_cost (run.output.length * CODEDEPOSIT) with
              | none =>
                if homestead then
                  .ok ({ exit_reason := .failure .outOfGas,
                         address := some created_address, gas := run.gas,
                         return_value := run.output }, checkpoint_revert cp js)
                else
                  let acc := getAccount created_address js
                  .ok ({ exit_reason := .success .cont,
                         address := some created_address, gas := run.gas,
                         return_value := [] },
                       setAccount created_address { acc with hasCode := false } js)
              | some gas' =>
                let acc := getAccount created_address js
                .ok ({ exit_reason := .success .cont,
                       address := some created_address, gas := gas',
                       return_value := run.output },
                     setAccount created_address
                       { acc with hasCode := run.output ≠ [] } js)
          else
            .ok ({ exit_reason := .success run.exit_reason,
                   address := some created_address, gas := run.gas,
                   return_value := run.output }, checkpoint_revert cp js)

/-! ## C4: static-context gates (crates/revm/src/instructions/host.rs) -/

/-- Modelled from the spec: the `check!` macro lives in
crates/revm/src/instructions/macros.rs, which is not under src/.  Spec
section 4.6: "When `is_static` is true, the following opcodes fail with
WriteInStaticContext"; the macro fails when its condition is false. -/
def checkGate (cond : Bool) : Except XHalt Unit :=
  if cond then .ok () else .error .writeInStaticContext

/-- The static-context gate of `sstore`
(crates/revm/src/instructions/host.rs line 165):
`check!(interpreter, !interpreter.is_static)`. -/
def sstore_static_gate (is_static : Bool) : Except XHalt Unit :=
  checkGate (!is_static)

/-- Modelled from the spec: the TSTORE instruction lives in the
interpreter crate, which is not under src/.  Spec section 4.6 lists
TSTORE among the opcodes failing with WriteInStaticContext when
`is_static` is true. -/
def tstore_static_gate (is_static : Bool) : Except XHalt Unit :=
  checkGate (!is_static)

/-- The static-context gate of `log` — LOG0 through LOG4 instantiate the
same function (crates/revm/src/instructions/host.rs line 185). -/
def log_static_gate (_n : Fin 5) (is_static : Bool) : Except XHalt Unit :=
  checkGate (!is_static)

/-- The static-context gate of `create` — CREATE and CREATE2 instantiate
the same function (crates/revm/src/instructions/host.rs line 239). -/
def create_static_gate (_is_create2 : Bool) (is_static : Bool) : Except XHalt Unit :=
  checkGate (!is_static)

/-- The static-context gate of `selfdestruct`
(crates/revm/src/instructions/host.rs line 219). -/
def selfdestruct_static_gate (is_static : Bool) : Except XHalt Unit :=
  checkGate (!is_static)

/-- The value check of `call_inner` for the CALL scheme
(crates/revm/src/instructions/host.rs lines 362-375): a nonzero value in
a static context fails with `WriteInStaticContext`; the popped value is
returned otherwise. -/
def call_value_check (scheme : CallScheme) (is_static : Bool) (value : Nat) :
    Except XHalt Nat :=
  match scheme with
  | .callCode => .ok value
  | .call =>
    if is_static ∧ value ≠ 0 then .error .writeInStaticContext else .ok value
  | .delegateCall | .staticCall => .ok 0

/-! ## C9: CacheState storage reads
(crates/revm/src/state/in_memory_state.rs 192-297) -/

/-- The `AccountState` enum (crates/revm/src/state/in_memory_state.rs
lines 74-87). -/
inductive AccountState where
  | notExisting
  | touched
  | storageCleared
  | noneState
deriving Repr, DecidableEq

/-- `StateAccount` (crates/revm/src/state/in_memory_state.rs lines
25-32), with the fields read by the storage paths. -/
structure StateAccount where
  info : AccountInfo
  account_state : AccountState
  storage : List (Nat × Nat)
deriving Repr, DecidableEq

/-- Look up a storage slot in an account's slot map. -/
def lookupSlot (k : Nat) : List (Nat × Nat) → Option Nat
  | [] => none
  | (k', v) :: rest => if k' = k then some v else lookupSlot k rest

/-- Update a storage slot in an account's slot map. -/
def updateSlot (k v : Nat) : List (Nat × Nat) → List (Nat × Nat)
  | [] => [(k, v)]
  | (k', w) :: rest => if k' = k then (k', v) :: rest else (k', w) :: updateSlot k v rest

/-- The `CacheState` account cache; the backing store is represented by
the two oracles passed to the read functions. -/
abbrev CacheAccounts := List (Addr × StateAccount)

/-- Look up an address in the cache. -/
def lookupCache (a : Addr) : CacheAccounts → Option StateAccount
  | [] => none
  | (k, v) :: rest => if k = a then some v else lookupCache a rest

/-- Update an address in the cache. -/
def updateCache (a : Addr) (v : StateAccount) : CacheAccounts → CacheAccounts
  | [] => [(a, v)]
  | (k, w) :: rest => if k = a then (k, v) :: rest else (k, w) :: updateCache a v rest

/-- `State::storage` for `CacheState`
(crates/revm/src/state/in_memory_state.rs lines 214-249), the mutable
read path.  `ext_basic` and `ext_storage` are the backing store; the
returned boolean records whether `ext_storage` was queried. -/
def cache_state_storage (ext_basic : Addr → Option AccountInfo)
    (ext_storage : Addr → Nat → Nat) (accounts : CacheAccounts)
    (address : Addr) (index : Nat) : Nat × CacheAccounts × Bool :=
  match lookupCache address accounts with
  | some acc =>
    match lookupSlot index acc.storage with
    | some v => (v, accounts, false)
    | none =>
      if acc.account_state = AccountState.storageCleared
          ∨ acc.account_state = AccountState.notExisting then
        (0, accounts, false)
      else
        let slot := ext_storage address index
        (slot, updateCache address { acc with storage := updateSlot index slot acc.storage }
          accounts, true)
  | none =>
    match ext_basic address with
    | some info =>
      let value := ext_storage address index
      let acc : StateAccount :=
        { info := info, account_state := .noneState, storage := [(index, value)] }
      (value, updateCache address acc accounts, true)
    | none =>
      let acc : StateAccount :=
        { info := default, account_state := .notExisting, storage := [] }
      (0, updateCache address acc accounts, false)

/-- `StateRef::storage` for `CacheState`
(crates/revm/src/state/in_memory_state.rs lines 272-289), the
shared-reference read path.  The returned boolean records whether
`ext_storage` was queried. -/
def cache_stateref_storage (ext_storage : Addr → Nat → Nat)
    (accounts : CacheAccounts) (address : Addr) (index : Nat) : Nat × Bool :=
  match lookupCache address accounts with
  | some acc =>
    match lookupSlot index acc.storage with
    | some v => (v, false)
    | none =>
      if acc.account_state = AccountState.storageCleared
          ∨ acc.account_state = AccountState.notExisting then
        (0, false)
      else (ext_storage address index, true)
  | none => (ext_storage address index, true)

/-! ## Helper lemmas: account maps and journal revert -/

theorem lookupA_updateA_self (a : Addr) (v : JAccount) (s : AccountMap) :
    lookupA a (updateA a v s) = some v := by
  induction s with
  | nil => simp [lookupA, updateA]
  | cons hd tl ih =>
    obtain ⟨k, w⟩ := hd
    by_cases hk : k = a
    · simp [lookupA, updateA, hk]
    · simp [lookupA, updateA, hk, ih]

theorem lookupA_updateA_ne (a b : Addr) (v : JAccount) (s : AccountMap)
    (h : b ≠ a) : lookupA b (updateA a v s) = lookupA b s := by
  have hab : a ≠ b := fun hab => h hab.symm
  induction s with
  | nil =>
    simp only [updateA, lookupA]
    rw [if_neg hab]
  | cons hd tl ih =>
    obtain ⟨k, w⟩ := hd
    simp only [updateA]
    by_cases hk : k = a
    · subst hk
      simp only [if_pos rfl, lookupA]
      rw [if_neg hab, if_neg hab]
    · simp only [if_neg hk, lookupA, ih]

theorem removeA_updateA_of_lookup_none (a : Addr) (v : JAccount) (s : AccountMap)
    (h : lookupA a s = none) : removeA a (updateA a v s) = s := by
  induction s with
  | nil => simp [removeA, updateA]
  | cons hd tl ih =>
    obtain ⟨k, w⟩ := hd
    by_cases hk : k = a
    · simp [lookupA, hk] at h
    · simp [lookupA, hk] at h
      simp [removeA, updateA, hk, ih h]

theorem updateA_updateA (a : Addr) (v w : JAccount) (s : AccountMap) :
    updateA a w (updateA a v s) = updateA a w s := by
  induction s with
  | nil => simp [updateA]
  | cons hd tl ih =>
    obtain ⟨k, u⟩ := hd
    by_cases hk : k = a <;> simp [updateA, hk, ih]

theorem updateA_lookup_self (a : Addr) (w : JAccount) (s : AccountMap)
    (h : lookupA a s = some w) : updateA a w s = s := by
  induction s with
  | nil => simp [lookupA] at h
  | cons hd tl ih =>
    obtain ⟨k, u⟩ := hd
    by_cases hk : k = a
    · simp [lookupA, hk] at h
      simp [updateA, hk, h]
    · simp [lookupA, hk] at h
      simp [updateA, hk, ih h]

theorem undoEntry_update (a : Addr) (v : JAccount) (s : AccountMap) :
    undoEntry (a, lookupA a s) (updateA a v s) = s := by
  cases h : lookupA a s with
  | none => simp [undoEntry, removeA_updateA_of_lookup_none a v s h]
  | some w =>
    simp [undoEntry, updateA_updateA, updateA_lookup_self a w s h]

theorem revertJournal_self (j : List JEntry) (s : AccountMap) :
    revertJournal j.length j s = (j, s) := by
  cases j with
  | nil => simp [revertJournal]
  | cons e rest => simp [revertJournal]

theorem revertJournal_decompose (cp : Nat) (j : List JEntry) (s : AccountMap) :
    revertJournal cp j s =
      revertJournal cp (revertJournal (cp + 1) j s).1 (revertJournal (cp + 1) j s).2 := by
  induction j generalizing s with
  | nil => simp [revertJournal]
  | cons e rest ih =>
    by_cases h : (e :: rest).length ≤ cp + 1
    · conv_rhs => rw [revertJournal, if_pos h]
    · have h' : ¬ (e :: rest).length ≤ cp := by omega
      conv_rhs => rw [revertJournal, if_neg h]
      conv_lhs => rw [revertJournal, if_neg h']
      exact ih (undoEntry e s)

theorem applyOps_nil (js : JournaledState) : applyOps [] js = js := rfl

theorem applyOps_cons (a : Addr) (v : JAccount) (ops : List (Addr × JAccount))
    (js : JournaledState) :
    applyOps ((a, v) :: ops) js = applyOps ops (setAccount a v js) := rfl

theorem applyOps_append (l1 l2 : List (Addr × JAccount)) (js : JournaledState) :
    applyOps (l1 ++ l2) js = applyOps l2 (applyOps l1 js) := by
  simp [applyOps, List.foldl_append]

theorem setAccount_journal (a : Addr) (v : JAccount) (js : JournaledState) :
    (setAccount a v js).journal = (a, lookupA a js.state) :: js.journal := rfl

theorem setAccount_depth (a : Addr) (v : JAccount) (js : JournaledState) :
    (setAccount a v js).depth = js.depth := rfl

theorem applyOps_depth (ops : List (Addr × JAccount)) (js : JournaledState) :
    (applyOps ops js).depth = js.depth := by
  induction ops generalizing js with
  | nil => rfl
  | cons hd tl ih =>
    obtain ⟨a, v⟩ := hd
    rw [applyOps_cons, ih, setAccount_depth]

theorem revertJournal_applyOps (ops : List (Addr × JAccount)) (js : JournaledState) :
    revertJournal js.journal.length (applyOps ops js).journal (applyOps ops js).state =
      (js.journal, js.state) := by
  induction ops generalizing js with
  | nil => exact revertJournal_self js.journal js.state
  | cons hd tl ih =>
    obtain ⟨a, v⟩ := hd
    rw [applyOps_cons]
    have hlen : (setAccount a v js).journal.length = js.journal.length + 1 := by
      simp [setAccount_journal]
    rw [revertJournal_decompose]
    have h1 := ih (setAccount a v js)
    rw [hlen] at h1
    rw [h1]
    have h2 : ¬ ((a, lookupA a js.state) :: js.journal).length ≤ js.journal.length := by
      simp
    simp only [setAccount_journal, setAccount]
    rw [revertJournal, if_neg h2, undoEntry_update]
    exact revertJournal_self js.journal js.state

/-- Reachability by a sequence of journaled mutations: everything a
frame can do to the account map between a checkpoint and its revert. -/
def JReach (js js' : JournaledState) : Prop :=
  ∃ ops, js' = applyOps ops js

theorem JReach.refl (js : JournaledState) : JReach js js := ⟨[], rfl⟩

theorem JReach.trans {a b c : JournaledState} (h1 : JReach a b) (h2 : JReach b c) :
    JReach a c := by
  obtain ⟨l1, rfl⟩ := h1
  obtain ⟨l2, rfl⟩ := h2
  exact ⟨l1 ++ l2, (applyOps_append l1 l2 a).symm⟩

theorem JReach.set {js js' : JournaledState} (a : Addr) (v : JAccount)
    (h : JReach js js') : JReach js (setAccount a v js') := by
  refine h.trans ⟨[(a, v)], rfl⟩

theorem JReach.ofSet (a : Addr) (v : JAccount) (js : JournaledState) :
    JReach js (setAccount a v js) := (JReach.refl js).set a v

theorem JReach.applyOps (ops : List (Addr × JAccount)) {js js' : JournaledState}
    (h : JReach js js') : JReach js (Revm.applyOps ops js') :=
  h.trans ⟨ops, rfl⟩

theorem transfer_ok_reach {src dst : Addr} {value : Nat} {js js' : JournaledState}
    (h : transfer src dst value js = .ok js') : JReach js js' := by
  unfold transfer at h
  by_cases hb : (getAccount src js).balance < value
  · simp [hb] at h
  · simp only [hb, if_false] at h
    cases h
    exact (JReach.ofSet _ _ js).set _ _

theorem create_account_some_reach {a : Addr} {js js' : JournaledState}
    (h : create_account a js = some js') : JReach js js' := by
  unfold create_account at h
  by_cases hc : (getAccount a js).nonce ≠ 0 ∨ (getAccount a js).hasCode
  · simp [hc] at h
  · simp only [hc, if_false] at h
    cases h
    exact JReach.ofSet _ _ js

theorem checkpoint_revert_of_reach {js js' : JournaledState} (h : JReach js js') :
    checkpoint_revert (checkpoint js) js' = js := by
  obtain ⟨ops, rfl⟩ := h
  unfold checkpoint_revert checkpoint
  rw [revertJournal_applyOps ops js]
  have hd := applyOps_depth ops js
  cases js
  simp_all

theorem load_account_reach (a : Addr) (db : Addr → JAccount) (js : JournaledState) :
    JReach js (load_account a db js) := by
  unfold load_account
  cases lookupA a js.state with
  | none => exact JReach.ofSet _ _ js
  | some w => exact JReach.refl js

theorem lookupA_load_of_present (a b : Addr) (db : Addr → JAccount)
    (js : JournaledState) (w : JAccount) (h : lookupA b js.state = some w) :
    lookupA b (load_account a db js).state = some w := by
  unfold load_account
  cases ha : lookupA a js.state with
  | some u => simpa [ha] using h
  | none =>
    have hab : b ≠ a := fun hba => by rw [hba, ha] at h; cases h
    simp only [ha, setAccount]
    rw [lookupA_updateA_ne a b _ _ hab]
    exact h

theorem load_account_depth (a : Addr) (db : Addr → JAccount) (js : JournaledState) :
    (load_account a db js).depth = js.depth := by
  unfold load_account
  cases lookupA a js.state with
  | none => rfl
  | some w => rfl

/-! ## Claim theorems -/

/-- C1: in `EVMImpl::finalize`, with gas refunds enabled, the refund
granted equals `min(accumulated refund counter, gas spent / q)` with
`q = 5` when London is enabled and `q = 2` otherwise; consequently it
never exceeds `gas spent / q`. -/
theorem c1_finalize_refund_cap (london : Bool) (g : Gas) (r : Nat)
    (hrefund : g.refunded = (r : Int)) (hr : r < U64_MOD) :
    finalize_gas_refunded false london g =
      min r (g.spend / (if london then 5 else 2)) ∧
    finalize_gas_refunded false london g ≤ g.spend / (if london then 5 else 2) := by
  have hcast : i64AsU64 g.refunded = r := by
    rw [hrefund]
    unfold i64AsU64
    rw [Int.emod_eq_of_lt (by positivity) (by exact_mod_cast hr)]
    simp
  constructor
  · simp [finalize_gas_refunded, hcast]
  · simp only [finalize_gas_refunded, if_false, Bool.false_eq_true]
    exact Nat.min_le_right _ _

/-- C1 witness: a concrete finalize with London enabled, refund counter
7 and 60 gas spent grants `min 7 12 = 7`. -/
theorem c1_finalize_refund_cap_witness :
    finalize_gas_refunded false true { limit := 100, remaining := 40, refunded := 7 } =
      min 7 (Gas.spend { limit := 100, remaining := 40, refunded := 7 } / 5) ∧
    finalize_gas_refunded false true { limit := 100, remaining := 40, refunded := 7 } ≤
      Gas.spend { limit := 100, remaining := 40, refunded := 7 } / 5 := by
  have h := c1_finalize_refund_cap true { limit := 100, remaining := 40, refunded := 7 } 7
    rfl (by norm_num [U64_MOD])
  simpa using h

/-- C2: with Tangerine enabled, the gas handed to a CALL-family subcall
is `min(requested, remaining - remaining/64)` of the gas remaining after
the call's base cost was charged, plus the 2300 stipend exactly when the
call transfers a nonzero value. -/
theorem c2_call_forward_gas (scheme : CallScheme)
    (base_cost remaining local_gas_limit value : Nat)
    (hbase : base_cost ≤ remaining) :
    (call_forward_gas true scheme base_cost remaining local_gas_limit value).map
        (fun p => p.1) =
      some (min local_gas_limit
              ((remaining - base_cost) - (remaining - base_cost) / 64)
            + (if transferValue scheme value ≠ 0 then CALL_STIPEND else 0)) := by
  unfold call_forward_gas
  rw [if_pos hbase]
  set rem := remaining - base_cost with hrem
  have hle : min (rem - rem / 64) local_gas_limit ≤ rem :=
    le_trans (Nat.min_le_left _ _) (Nat.sub_le _ _)
  simp only [if_pos rfl, if_true]
  rw [if_pos hle]
  have hcond : ((scheme = CallScheme.call ∨ scheme = CallScheme.callCode)
      ∧ transferValue scheme value ≠ 0) ↔ transferValue scheme value ≠ 0 := by
    cases scheme <;> simp [transferValue]
  by_cases hv : transferValue scheme value ≠ 0
  · rw [if_pos (hcond.mpr hv), if_pos hv]
    simp [Nat.min_comm]
  · rw [if_neg (fun hc => hv hc.2), if_neg hv]
    simp [Nat.min_comm]

/-- C2 witness: a CALL with 1000 gas remaining after a base cost of 40,
requesting 2000 gas and transferring value 5, is forwarded
`min(2000, 960 - 15) + 2300`. -/
theorem c2_call_forward_gas_witness :
    (call_forward_gas true CallScheme.call 40 1000 2000 5).map (fun p => p.1) =
      some (min 2000 ((1000 - 40) - (1000 - 40) / 64)
            + (if transferValue CallScheme.call 5 ≠ 0 then CALL_STIPEND else 0)) :=
  c2_call_forward_gas CallScheme.call 40 1000 2000 5 (by norm_num)

/-- C4: when `is_static` is true, SSTORE, TSTORE, LOG0..LOG4, CREATE,
CREATE2, SELFDESTRUCT, and CALL with nonzero value all fail with the
`WriteInStaticContext` halt. -/
theorem c4_static_context_enforcement (n : Fin 5) (is_create2 : Bool) (value : Nat)
    (hv : value ≠ 0) :
    sstore_static_gate true = .error .writeInStaticContext ∧
    tstore_static_gate true = .error .writeInStaticContext ∧
    log_static_gate n true = .error .writeInStaticContext ∧
    create_static_gate is_create2 true = .error .writeInStaticContext ∧
    selfdestruct_static_gate true = .error .writeInStaticContext ∧
    call_value_check CallScheme.call true value = .error .writeInStaticContext := by
  refine ⟨rfl, rfl, rfl, rfl, rfl, ?_⟩
  simp [call_value_check, hv]

/-- C4 witness: the static gates at LOG0, CREATE, and a CALL of value 1. -/
theorem c4_static_context_enforcement_witness :
    sstore_static_gate true = .error .writeInStaticContext ∧
    tstore_static_gate true = .error .writeInStaticContext ∧
    log_static_gate 0 true = .error .writeInStaticContext ∧
    create_static_gate false true = .error .writeInStaticContext ∧
    selfdestruct_static_gate true = .error .writeInStaticContext ∧
    call_value_check CallScheme.call true 1 = .error .writeInStaticContext :=
  c4_static_context_enforcement 0 false 1 (by norm_num)

/-- C7: BLOCKHASH pushes zero when the requested number equals the
current block number, exceeds it, or is more than 256 blocks behind it,
and pushes the backing store's hash when it is between 1 and 256 blocks
behind; this holds for the instruction (host.rs) and for
`Host::block_hash` of `Context` (context.rs), the latter for block
numbers in u64 range. -/
theorem c7_blockhash (block_number number : Nat) (store : Nat → Nat)
    (hbn : block_number < U64_MOD) :
    (number = block_number →
      blockhash block_number store number = 0 ∧
      context_block_hash block_number store number = 0) ∧
    (number > block_number →
      blockhash block_number store number = 0 ∧
      context_block_hash block_number store number = 0) ∧
    (block_number > number + 256 →
      blockhash block_number store number = 0 ∧
      context_block_hash block_number store number = 0) ∧
    (number + 1 ≤ block_number ∧ block_number ≤ number + 256 →
      blockhash block_number store number = store number ∧
      context_block_hash block_number store number = store number) := by
  have hsat : min block_number (U64_MOD - 1) = block_number := by
    have : U64_MOD = 2 ^ 64 := rfl
    omega
  refine ⟨?_, ?_, ?_, ?_⟩
  · intro h
    subst h
    constructor
    · unfold blockhash
      rw [if_pos (le_refl _)]
      simp
    · unfold context_block_hash
      rw [hsat, if_pos (le_refl _)]
      simp
  · intro h
    constructor
    · unfold blockhash
      rw [if_neg (by omega)]
    · unfold context_block_hash
      rw [hsat, if_neg (by omega)]
  · intro h
    have hle : number ≤ block_number := by omega
    have hdiff : 256 < block_number - number := by omega
    constructor
    · unfold blockhash
      rw [if_pos hle, if_neg ?_]
      have hM : (256 : Nat) < U64_MOD - 1 := by
        have : U64_MOD = 2 ^ 64 := rfl
        omega
      intro hc
      have := hc.1
      omega
    · unfold context_block_hash
      rw [hsat, if_pos hle, if_neg (by omega), if_neg (by omega)]
  · intro h
    have hle : number ≤ block_number := by omega
    have hd1 : block_number - number ≤ 256 := by omega
    have hd2 : block_number - number ≠ 0 := by omega
    have hmin : min (block_number - number) (U64_MOD - 1) = block_number - number := by
      have : U64_MOD = 2 ^ 64 := rfl
      omega
    constructor
    · unfold blockhash
      rw [if_pos hle, hmin, if_pos ⟨hd1, hd2⟩]
    · unfold context_block_hash
      rw [hsat, if_pos hle, if_neg hd2, if_pos hd1]

/-- C7 witness: at current block 1000, requesting 1000, 1001, 700 and
999 gives zero, zero, zero, and the stored hash of 999. -/
theorem c7_blockhash_witness :
    (blockhash 1000 (fun n => n + 7) 1000 = 0 ∧
      context_block_hash 1000 (fun n => n + 7) 1000 = 0) ∧
    (blockhash 1000 (fun n => n + 7) 1001 = 0 ∧
      context_block_hash 1000 (fun n => n + 7) 1001 = 0) ∧
    (blockhash 1000 (fun n => n + 7) 700 = 0 ∧
      context_block_hash 1000 (fun n => n + 7) 700 = 0) ∧
    (blockhash 1000 (fun n => n + 7) 999 = (fun n => n + 7) 999 ∧
      context_block_hash 1000 (fun n => n + 7) 999 = (fun n => n + 7) 999) := by
  have h1000 := c7_blockhash 1000 1000 (fun n => n + 7) (by norm_num [U64_MOD])
  have h1001 := c7_blockhash 1000 1001 (fun n => n + 7) (by norm_num [U64_MOD])
  have h700 := c7_blockhash 1000 700 (fun n => n + 7) (by norm_num [U64_MOD])
  have h999 := c7_blockhash 1000 999 (fun n => n + 7) (by norm_num [U64_MOD])
  exact ⟨h1000.1 rfl, h1001.2.1 (by norm_num), h700.2.2.1 (by norm_num),
    h999.2.2.2 ⟨by norm_num, by norm_num⟩⟩

theorem foldl_add_length (l : List (Addr × List Nat)) (n : Nat) :
    l.foldl (fun acc p => acc + p.2.length) n =
      n + (l.map (fun p => p.2.length)).sum := by
  induction l generalizing n with
  | nil => simp
  | cons hd tl ih => simp [List.foldl_cons, ih, Nat.add_assoc]

/-- C8: the intrinsic gas of `EVMImpl::initialization` equals a base of
21000 (53000 for a create transaction with Homestead enabled), plus 4
per zero calldata byte, plus 16 per nonzero byte with Istanbul enabled
and 68 otherwise, plus 2400 per access-list address and 1900 per
access-list slot with Berlin enabled. -/
theorem c8_intrinsic_gas (is_create homestead istanbul berlin : Bool)
    (data : List Nat) (access_list : List (Addr × List Nat)) :
    initialization is_create homestead istanbul berlin data access_list =
      (if is_create ∧ homestead then 53000 else 21000)
      + 4 * data.countP (fun v => v = 0)
      + (if istanbul then 16 else 68) * (data.length - data.countP (fun v => v = 0))
      + (if berlin then
           2400 * access_list.length
           + 1900 * (access_list.map (fun p => p.2.length)).sum
         else 0) := by
  unfold initialization TRANSACTION_ZERO_DATA ACCESS_LIST_ADDRESS ACCESS_LIST_STORAGE_KEY
  rw [List.countP_eq_length_filter]
  cases is_create <;> cases homestead <;> cases istanbul <;> cases berlin <;>
    simp [foldl_add_length] <;> ring

/-- C9: a `CacheState` storage read of a slot absent from a cached
account's slot map returns zero without querying the backing store when
the account's state is `StorageCleared` or `NotExisting`, on both the
mutable (`State::storage`) and shared-reference (`StateRef::storage`)
paths. -/
theorem c9_cache_storage_cleared_reads_zero
    (ext_basic : Addr → Option AccountInfo) (ext_storage : Addr → Nat → Nat)
    (accounts : CacheAccounts) (address : Addr) (index : Nat) (acc : StateAccount)
    (hacc : lookupCache address accounts = some acc)
    (hstate : acc.account_state = AccountState.storageCleared
      ∨ acc.account_state = AccountState.notExisting)
    (hslot : lookupSlot index acc.storage = none) :
    cache_state_storage ext_basic ext_storage accounts address index =
      (0, accounts, false) ∧
    cache_stateref_storage ext_storage accounts address index = (0, false) := by
  constructor
  · unfold cache_state_storage
    rw [hacc]
    simp only [hslot]
    rw [if_pos hstate]
  · unfold cache_stateref_storage
    rw [hacc]
    simp only [hslot]
    rw [if_pos hstate]

/-- C9 witness: a cached `StorageCleared` account with an empty slot map
reads slot 5 as zero on both paths, leaving the cache untouched. -/
theorem c9_cache_storage_cleared_reads_zero_witness :
    cache_state_storage (fun _ => some default) (fun _ _ => 99)
        [(1, { info := default, account_state := AccountState.storageCleared,
               storage := [] })] 1 5 =
      (0, [(1, { info := default, account_state := AccountState.storageCleared,
                 storage := [] })], false) ∧
    cache_stateref_storage (fun _ _ => 99)
        [(1, { info := default, account_state := AccountState.storageCleared,
               storage := [] })] 1 5 = (0, false) :=
  c9_cache_storage_cleared_reads_zero (fun _ => some default) (fun _ _ => 99)
    _ 1 5 _ rfl (Or.inl rfl) rfl

/-- C10: `Host::code_hash` returns `KECCAK_EMPTY` for a precompile
address when `perf_all_precompiles_have_balance` is set; otherwise the
all-zero hash (which differs from `KECCAK_EMPTY`) for an empty loaded
account; otherwise the account's stored code hash. -/
theorem c10_code_hash (precompiles : List Addr) (flag : Bool) (address : Addr)
    (acc : AccountInfo) :
    (address ∈ precompiles ∧ flag = true →
      code_hash precompiles flag address acc = KECCAK_EMPTY) ∧
    (¬ (address ∈ precompiles ∧ flag = true) → acc.is_empty = true →
      code_hash precompiles flag address acc = 0 ∧ (0 : Nat) ≠ KECCAK_EMPTY) ∧
    (¬ (address ∈ precompiles ∧ flag = true) → acc.is_empty = false →
      code_hash precompiles flag address acc = acc.code_hash) := by
  refine ⟨?_, ?_, ?_⟩
  · intro h
    unfold code_hash
    rw [if_pos ⟨h.1, h.2⟩]
  · intro h hemp
    have h' : ¬ (address ∈ precompiles ∧ flag) := by
      intro hc
      exact h ⟨hc.1, hc.2⟩
    constructor
    · unfold code_hash
      rw [if_neg h', if_pos hemp]
    · intro hzero
      have : (0 : Nat) = KECCAK_EMPTY := hzero
      rw [KECCAK_EMPTY] at this
      omega
  · intro h hemp
    have h' : ¬ (address ∈ precompiles ∧ flag) := by
      intro hc
      exact h ⟨hc.1, hc.2⟩
    unfold code_hash
    rw [if_neg h']
    simp [hemp]

/-- C10 witness: precompile address 3 with the flag set reads
`KECCAK_EMPTY`; an empty non-precompile account reads the zero hash; a
non-empty account reads its stored hash 7. -/
theorem c10_code_hash_witness :
    code_hash [3] true 3 { balance := 1, nonce := 2, code_hash := 5 } = KECCAK_EMPTY ∧
    code_hash [] false 0 { balance := 0, nonce := 0, code_hash := 0 } = 0 ∧
    code_hash [] false 0 { balance := 1, nonce := 0, code_hash := 7 } = 7 := by
  refine ⟨?_, ?_, ?_⟩
  · exact (c10_code_hash [3] true 3 _).1 ⟨by simp, rfl⟩
  · exact ((c10_code_hash [] false 0 _).2.1 (by simp) (by rfl)).1
  · exact (c10_code_hash [] false 0 _).2.2 (by simp)
      (by simp [AccountInfo.is_empty])

theorem setAccount_state (a : Addr) (v : JAccount) (js : JournaledState) :
    (setAccount a v js).state = updateA a v js.state := rfl

theorem load_account_present (a : Addr) (db : Addr → JAccount) (js : JournaledState)
    (w : JAccount) (h : lookupA a js.state = some w) : load_account a db js = js := by
  unfold load_account
  rw [h]

theorem getAccount_eq (a : Addr) (js : JournaledState) (w : JAccount)
    (h : lookupA a js.state = some w) : getAccount a js = w := by
  unfold getAccount
  rw [h]
  rfl

theorem reach_if_set (b : Bool) (a : Addr) (v : JAccount) (s : JournaledState) :
    JReach s (if b then setAccount a v s else s) := by
  cases b
  · simpa using JReach.refl s
  · simpa using JReach.ofSet a v s

/-- C6 (amended): a call or create frame entered at a depth beyond 1024
terminates immediately — before any checkpoint, transfer, or code
execution — with the depth-limit halt (named `StackDepthLimit` in the
call path and `CallTooDeep` in the create path) and with the frame's gas
untouched. -/
theorem c6_depth_limit_halts_frame (db : Addr → JAccount) (inputs : CallInputs)
    (cinputs : CreateInputs) (run : FrameRun) (js : JournaledState)
    (spurious london homestead : Bool) (lim : Nat) (mk_address : Addr → Nat → Addr)
    (hdepth : js.depth > CALL_STACK_LIMIT) :
    evm_call_inner db inputs run js =
      .ok ({ exit_reason := .failure .stackDepthLimit,
             gas := Gas.new inputs.gas_limit, return_value := [] },
           load_account inputs.contract db js) ∧
    evm_create_inner spurious london homestead lim db mk_address cinputs run js =
      .ok ({ exit_reason := .failure .callTooDeep, address := none,
             gas := Gas.new cinputs.gas_limit, return_value := [] },
           load_account cinputs.caller db js) := by
  constructor
  · simp only [evm_call_inner]
    rw [load_account_depth, if_pos hdepth]
  · simp only [evm_create_inner]
    rw [load_account_depth, if_pos hdepth]

/-- C6 witness: a frame at depth 1025 with gas limit 777. -/
theorem c6_depth_limit_halts_frame_witness :
    evm_call_inner (fun _ => default)
        { contract := 2, source := 1, target := 2, value := 0,
          context_address := 2, gas_limit := 777, is_static := false }
        { ops := [], exit_reason := .stop, gas := Gas.new 0, output := [] }
        { state := [], journal := [], depth := 1025 } =
      .ok ({ exit_reason := .failure .stackDepthLimit, gas := Gas.new 777,
             return_value := [] },
           load_account 2 (fun _ => default)
             { state := [], journal := [], depth := 1025 }) ∧
    evm_create_inner true true true 0x6000 (fun _ => default) (fun _ _ => 9)
        { caller := 1, value := 0, gas_limit := 777 }
        { ops := [], exit_reason := .stop, gas := Gas.new 0, output := [] }
        { state := [], journal := [], depth := 1025 } =
      .ok ({ exit_reason := .failure .callTooDeep, address := none,
             gas := Gas.new 777, return_value := [] },
           load_account 1 (fun _ => default)
             { state := [], journal := [], depth := 1025 }) :=
  c6_depth_limit_halts_frame (fun _ => default)
    { contract := 2, source := 1, target := 2, value := 0,
      context_address := 2, gas_limit := 777, is_static := false }
    { caller := 1, value := 0, gas_limit := 777 }
    { ops := [], exit_reason := .stop, gas := Gas.new 0, output := [] }
    { state := [], journal := [], depth := 1025 }
    true true true 0x6000 (fun _ _ => 9) (by decide)

/-- C6 counterexample to the claim as stated: a CALL frame entered at
depth 1025 halts with `StackDepthLimit`, which is a different
`ExceptionalHalt` variant than the `CallTooDeep` the claim names (the
source constructs the latter only in the create path, where the declared
enum does not even define it). -/
theorem c6_call_depth_halt_is_not_calltoodeep :
    evm_call_inner (fun _ => default)
        { contract := 2, source := 1, target := 2, value := 0,
          context_address := 2, gas_limit := 50, is_static := false }
        { ops := [], exit_reason := .stop, gas := Gas.new 0, output := [] }
        { state := [(2, { nonce := 0, balance := 0, hasCode := false })],
          journal := [], depth := 1025 } =
      .ok ({ exit_reason := .failure .stackDepthLimit, gas := Gas.new 50,
             return_value := [] },
           { state := [(2, { nonce := 0, balance := 0, hasCode := false })],
             journal := [], depth := 1025 }) ∧
    XHalt.stackDepthLimit ≠ XHalt.callTooDeep := by
  exact ⟨by rfl, by decide⟩

/-- C5: evaluating `EVMImpl::call_inner` at a CALL whose source account
(balance 0) cannot cover the transferred value 1: the `transfer` failure
propagates through the `?` operator as `TransactionError::OutOfFund`,
aborting the entire transaction — the calling frame does not continue
with 0 pushed, and the checkpoint is never reverted. -/
theorem c5_insufficient_balance_aborts_transaction :
    evm_call_inner (fun _ => default)
        { contract := 2, source := 1, target := 2, value := 1,
          context_address := 2, gas_limit := 1000, is_static := false }
        { ops := [], exit_reason := .stop, gas := Gas.new 0, output := [] }
        { state := [(1, { nonce := 0, balance := 0, hasCode := false }),
                    (2, { nonce := 0, balance := 5, hasCode := false })],
          journal := [], depth := 5 } = .error .outOfFund := by
  rfl

/-- C3: a CREATE frame whose init code succeeds with output starting
0xEF, with London enabled: the result is the `InvalidContractPrefix`
halt with the init code's output and the frame's full gas, the
checkpoint taken after the caller's nonce increment is reverted — so the
final journaled state is exactly the pre-checkpoint state `js3`, with
the transferred value back in the caller's balance — while the nonce
increment itself is preserved. -/
theorem c3_create_ef_invalid_contract_prefix (spurious homestead : Bool) (lim : Nat)
    (db : Addr → JAccount) (mk_address : Addr → Nat → Addr) (inputs : CreateInputs)
    (run : FrameRun) (js js2 js3 : JournaledState) (acc : JAccount) (created : Addr)
    (hacc : lookupA inputs.caller js.state = some acc)
    (hdepth : ¬ js.depth > CALL_STACK_LIMIT)
    (hbal : ¬ acc.balance < inputs.value)
    (hnonce : acc.nonce + 1 < U64_MOD)
    (hcreated : mk_address inputs.caller acc.nonce = created)
    (hjs2 : js2 = setAccount inputs.caller { acc with nonce := acc.nonce + 1 } js)
    (hjs3 : js3 = load_account created db js2)
    (hnoc : (getAccount created js3).nonce = 0 ∧ (getAccount created js3).hasCode = false)
    (hok : run.exit_reason.isOk = true)
    (hout : run.output.head? = some 0xEF) :
    evm_create_inner spurious true homestead lim db mk_address inputs run js =
      .ok ({ exit_reason := .failure .invalidContractPrefixHalt,
             address := some created, gas := Gas.new inputs.gas_limit,
             return_value := run.output }, js3) ∧
    (getAccount inputs.caller js3).nonce = acc.nonce + 1 ∧
    (getAccount inputs.caller js3).balance = acc.balance := by
  have hv2 : lookupA inputs.caller js2.state = some { acc with nonce := acc.nonce + 1 } := by
    rw [hjs2, setAccount_state]
    exact lookupA_updateA_self _ _ _
  have hv3 : lookupA inputs.caller js3.state = some { acc with nonce := acc.nonce + 1 } := by
    rw [hjs3]
    exact lookupA_load_of_present _ _ _ _ _ hv2
  have hne : inputs.caller ≠ created := by
    intro he
    have hg : getAccount created js3 = { acc with nonce := acc.nonce + 1 } := by
      rw [← he]
      exact getAccount_eq _ _ _ hv3
    rw [hg] at hnoc
    exact absurd hnoc.1 (Nat.succ_ne_zero _)
  have hne_out : run.output ≠ [] := by
    intro he
    rw [he] at hout
    simp at hout
  have hload1 : load_account inputs.caller db js = js :=
    load_account_present _ _ _ _ hacc
  have hga : getAccount inputs.caller js = acc := getAccount_eq _ _ _ hacc
  have hinc : inc_nonce inputs.caller js = some (acc.nonce + 1, js2) := by
    rw [hjs2]
    unfold inc_nonce
    rw [hacc]
    simp [hnonce]
  have hca_eq : create_account created js3 =
      some (setAccount created (getAccount created js3) js3) := by
    unfold create_account
    rw [if_neg (by simp [hnoc.1, hnoc.2])]
  have hc4 : getAccount inputs.caller
      (setAccount created (getAccount created js3) js3) =
        { acc with nonce := acc.nonce + 1 } := by
    unfold getAccount
    rw [setAccount_state, lookupA_updateA_ne _ _ _ _ hne, hv3]
    rfl
  have htr : ∃ js5,
      transfer inputs.caller created inputs.value
        (setAccount created (getAccount created js3) js3) = .ok js5 ∧
      JReach (setAccount created (getAccount created js3) js3) js5 := by
    unfold transfer
    rw [hc4]
    rw [if_neg hbal]
    exact ⟨_, rfl, (JReach.ofSet _ _ _).set _ _⟩
  obtain ⟨js5, htr_eq, htr_reach⟩ := htr
  refine ⟨?_, ?_, ?_⟩
  · simp only [evm_create_inner]
    rw [hload1, if_neg hdepth, hga, if_neg hbal, hinc]
    simp only [Nat.add_sub_cancel]
    rw [hcreated, ← hjs3, hca_eq]
    simp only []
    rw [htr_eq]
    simp only []
    rw [if_pos hok]
    rw [if_pos (show True ∧ run.output ≠ [] ∧ run.output.head? = some 0xEF from
      ⟨trivial, hne_out, hout⟩)]
    have hreach : JReach js3
        (applyOps run.ops
          (if spurious then
            setAccount created
              { getAccount created js5 with nonce := (getAccount created js5).nonce + 1 }
              js5
          else js5)) := by
      refine JReach.applyOps _ ?_
      exact ((JReach.ofSet created (getAccount created js3) js3).trans htr_reach).trans
        (reach_if_set spurious created _ js5)
    rw [checkpoint_revert_of_reach hreach]
  · rw [getAccount_eq _ _ _ hv3]
  · rw [getAccount_eq _ _ _ hv3]

/-- C3 witness: caller 1 (nonce 5, balance 100) creates at address 2
with value 10; the init code returns `[0xEF, 1]`.  The frame halts with
`InvalidContractPrefix`, the caller keeps nonce 6, and its balance is
back to 100. -/
theorem c3_create_ef_invalid_contract_prefix_witness :
    evm_create_inner false true false 0x6000 (fun _ => default) (fun _ _ => 2)
        { caller := 1, value := 10, gas_limit := 5000 }
        { ops := [], exit_reason := .stop, gas := Gas.new 100, output := [0xEF, 1] }
        { state := [(1, { nonce := 5, balance := 100, hasCode := false })],
          journal := [], depth := 0 } =
      .ok ({ exit_reason := .failure .invalidContractPrefixHalt,
             address := some 2, gas := Gas.new 5000, return_value := [0xEF, 1] },
           load_account 2 (fun _ => default)
             (setAccount 1 { nonce := 5 + 1, balance := 100, hasCode := false }
               { state := [(1, { nonce := 5, balance := 100, hasCode := false })],
                 journal := [], depth := 0 })) ∧
    (getAccount 1
        (load_account 2 (fun _ => default)
          (setAccount 1 { nonce := 5 + 1, balance := 100, hasCode := false }
            { state := [(1, { nonce := 5, balance := 100, hasCode := false })],
              journal := [], depth := 0 }))).nonce = 5 + 1 ∧
    (getAccount 1
        (load_account 2 (fun _ => default)
          (setAccount 1 { nonce := 5 + 1, balance := 100, hasCode := false }
            { state := [(1, { nonce := 5, balance := 100, hasCode := false })],
              journal := [], depth := 0 }))).balance = 100 :=
  c3_create_ef_invalid_contract_prefix false false 0x6000 (fun _ => default)
    (fun _ _ => 2)
    { caller := 1, value := 10, gas_limit := 5000 }
    { ops := [], exit_reason := .stop, gas := Gas.new 100, output := [0xEF, 1] }
    { state := [(1, { nonce := 5, balance := 100, hasCode := false })],
      journal := [], depth := 0 }
    (setAccount 1 { nonce := 5 + 1, balance := 100, hasCode := false }
      { state := [(1, { nonce := 5, balance := 100, hasCode := false })],
        journal := [], depth := 0 })
    (load_account 2 (fun _ => default)
      (setAccount 1 { nonce := 5 + 1, balance := 100, hasCode := false }
        { state := [(1, { nonce := 5, balance := 100, hasCode := false })],
          journal := [], depth := 0 }))
    { nonce := 5, balance := 100, hasCode := false } 2
    rfl (by decide) (by decide) (by decide) rfl rfl rfl (by decide) rfl rfl

end Revm
